import Mathlib

/-!
# Sparkline widget controller

A shallow embedding of `frontend/public/components/sparkline-widget/sparkline-widget.jsx`:
the polling controller of the `SparklineWidget` React component (its instance fields,
its `this.state` object and every method that touches them), together with the part of
the browser the methods talk to (interval timers, delayed calls, outstanding discovery
calls and range queries).

Conventions of the embedding.

* `this.setState(patch)` is React's: the merge of `patch` into `this.state`, and no
  change at all once React has unmounted the component.  Every handler runs to
  completion before the next event (JavaScript is single threaded).
* `this._isMounted` is only ever read through `!this._isMounted`, so the initial
  `undefined` is the boolean `false`.
* A thrown JavaScript exception is the `Except.error` result of a handler.
* Timestamps are carried as rationals (`ℚ`); no arithmetic is done on them.  Sample
  values are the strings the query service sends.
-/

namespace SparklineWidget

/-! ## Data model -/

/-- The `states` constant object (source lines 14-21); the string values are only ever
compared with each other. -/
inductive states
  | LOADING
  | NOTAVAILABLE
  | TIMEDOUT
  | NODATA
  | BROKEN
  | LOADED
  deriving DecidableEq, Repr

/-- One element of a series' `values` array: the pair `[timestamp, valueString]`;
`item[0]` is `item.1` and `item[1]` is `item.2`. -/
abbrev Item := ℚ × String

/-- The object built by `updateData` for one item: `{date: item[0], value: item[1]}`. -/
structure Sample where
  date : ℚ
  value : String
  deriving DecidableEq, Repr

/-- One entry of `json.data.result`; `values = none` is a missing (`undefined`)
`values` property. -/
structure Series where
  values : Option (List Item)
  deriving DecidableEq, Repr

/-- The `json.data` object; `result = none` is a missing `result` property. -/
structure Data where
  result : Option (List Series)
  deriving DecidableEq, Repr

/-- The parsed body handed to the `.done` handler; `data = none` is a missing `data`
property. -/
structure Response where
  status : String
  data : Option Data
  deriving DecidableEq, Repr

/-- The exceptions a handler can raise. -/
inductive JSError
  | TypeError
  deriving DecidableEq, Repr

/-- The component's `this.state` object (source lines 30-35). -/
structure State where
  data : List Sample
  showStats : Bool
  sortedValues : List String
  state : states
  deriving DecidableEq, Repr

end SparklineWidget

/-- The component instance (`this`) followed by the browser-side bookkeeping its methods
act on.

Instance fields: `updateInProgress`, `interval` (the handle stored by
`componentWillMount`, `none` for `null`), `_isMounted`, `state`.

React side: `unmounted` is true once React has unmounted the component, which it does
right after calling `componentWillUnmount`.

Browser side: `timers` are the handles of the interval timers that are armed,
`nextTimer` the next handle `setInterval` hands out, `timeouts` the number of delayed
`update` calls scheduled by `retry` that have not fired yet, `pendingDiscovery` and
`pendingQuery` the discovery calls and range queries whose callback has not been
delivered yet, `discoveryCalls` and `queriesSent` the totals started so far. -/
structure SparklineWidget where
  updateInProgress : Bool
  interval : Option ℕ
  _isMounted : Bool
  state : SparklineWidget.State
  unmounted : Bool
  timers : List ℕ
  nextTimer : ℕ
  timeouts : ℕ
  pendingDiscovery : ℕ
  pendingQuery : ℕ
  discoveryCalls : ℕ
  queriesSent : ℕ
  deriving DecidableEq, Repr

namespace SparklineWidget

/-! ## Browser primitives -/

/-- The call `setInterval(this.update.bind(this), 30 * 1000)` together with the
assignment of its handle to `this.interval`. -/
def setInterval (w : SparklineWidget) : SparklineWidget :=
  { w with interval := some w.nextTimer
           timers := w.nextTimer :: w.timers
           nextTimer := w.nextTimer + 1 }

/-- The call `clearInterval(this.interval)`: disarms the timer with that handle;
`clearInterval(null)` does nothing. -/
def clearInterval (w : SparklineWidget) : SparklineWidget :=
  match w.interval with
  | none => w
  | some h => { w with timers := w.timers.filter (fun t => t ≠ h) }

/-- The call `setTimeout(this.update.bind(this), 300)`. -/
def setTimeout (w : SparklineWidget) : SparklineWidget :=
  { w with timeouts := w.timeouts + 1 }

/-- The call `this.setState(patch)`, where `patch` overwrites some properties of
`this.state`.  On a component that React has unmounted the call changes nothing (React
logs a warning). -/
def setState (w : SparklineWidget) (patch : State → State) : SparklineWidget :=
  if w.unmounted then w else { w with state := patch w.state }

/-- How a call of `discoverService` answers: not before it returns (`deferred`), or by
invoking one of its two callbacks before it returns. -/
inductive Delivery
  | deferred
  | available
  | unavailable
  deriving DecidableEq, Repr

/-! ## Library functions -/

/-- The UTF-16 code units of a string, which is what JavaScript compares strings by. -/
def codeUnits (s : String) : List ℕ :=
  s.data.flatMap (fun c =>
    if c.toNat < 65536 then [c.toNat]
    else [55296 + (c.toNat - 65536) / 1024, 56320 + (c.toNat - 65536) % 1024])

/-- Lexicographic `<` on sequences of code units. -/
def codeUnitsLt : List ℕ → List ℕ → Bool
  | [], [] => false
  | [], _ :: _ => true
  | _ :: _, [] => false
  | a :: as, b :: bs => if a < b then true else if b < a then false else codeUnitsLt as bs

/-- JavaScript `a < b` on two strings. -/
def stringLt (a b : String) : Bool :=
  codeUnitsLt (codeUnits a) (codeUnits b)

/-- The order lodash sorts two samples in under the iteratee `(item) => item.value`:
`compareAscending` puts `a` after `b` only when `a.value > b.value`, and the values are
strings. -/
def valueLe (a b : Sample) : Prop :=
  stringLt b.value a.value = false

instance : DecidableRel valueLe :=
  fun a b => inferInstanceAs (Decidable (stringLt b.value a.value = false))

/-- The call `_.sortBy(data, (item) => item.value)`: a stable sort, ascending in the
iteratee. -/
def lodash_sortBy_value (data : List Sample) : List Sample :=
  data.insertionSort valueLe

/-- The call `_.map(collection, 'value')`. -/
def lodash_map_value (data : List Sample) : List String :=
  data.map (fun item => item.value)

/-! ## The component -/

/-- The `constructor` (source lines 26-36), in a browser with no timer armed and nothing
outstanding. -/
def init : SparklineWidget :=
  { updateInProgress := false
    interval := none
    _isMounted := false
    state := { data := [], showStats := false, sortedValues := [], state := states.LOADING }
    unmounted := false
    timers := []
    nextTimer := 0
    timeouts := 0
    pendingDiscovery := 0
    pendingQuery := 0
    discoveryCalls := 0
    queriesSent := 0 }

/-- The method `isState` (source lines 150-152). -/
def isState (w : SparklineWidget) (s : states) : Bool :=
  w.state.state = s

/-- The method `setShowStats` (source lines 154-158). -/
def setShowStats (w : SparklineWidget) (value : Bool) : SparklineWidget :=
  setState w (fun s => { s with showStats := value })

/-- The method `doUnavailable` (source lines 83-89). -/
def doUnavailable (w : SparklineWidget) : SparklineWidget :=
  let w := { w with updateInProgress := false }
  let w := clearInterval w
  setState w (fun s => { s with state := states.NOTAVAILABLE })

/-- The synchronous part of the method `doUpdate` (source lines 91-95): the range query
is sent.  The request URL is not modelled. -/
def doUpdate (w : SparklineWidget) : SparklineWidget :=
  { w with queriesSent := w.queriesSent + 1
           pendingQuery := w.pendingQuery + 1 }

/-- Modelled from the spec: `discoverService` of `../utils` is missing from the sources.
It is the callback-style resolution `{available(baseURL) | unavailable()}` of section 6:
the call is counted and, according to `d`, one callback runs before the call returns or
the answer stays outstanding. -/
def discoverService (d : Delivery) (w : SparklineWidget) : SparklineWidget :=
  let w := { w with discoveryCalls := w.discoveryCalls + 1 }
  match d with
  | Delivery.deferred => { w with pendingDiscovery := w.pendingDiscovery + 1 }
  | Delivery.available => doUpdate w
  | Delivery.unavailable => doUnavailable w

/-- The method `update` (source lines 69-81). -/
def update (d : Delivery) (w : SparklineWidget) : SparklineWidget :=
  if w.updateInProgress then
    w
  else
    discoverService d { w with updateInProgress := true }

/-- The method `componentWillMount` (source lines 38-44). -/
def componentWillMount (d : Delivery) (w : SparklineWidget) : SparklineWidget :=
  let w := setState w (fun s => { s with state := states.LOADING })
  let w := update d w
  setInterval w

/-- The method `componentDidMount` (source lines 46-48). -/
def componentDidMount (w : SparklineWidget) : SparklineWidget :=
  { w with _isMounted := true }

/-- The method `componentWillUnmount` (source lines 50-53). -/
def componentWillUnmount (w : SparklineWidget) : SparklineWidget :=
  clearInterval { w with _isMounted := false }

/-- React unmounting the component: it calls `componentWillUnmount` and then lets go of
the instance. -/
def unmount (w : SparklineWidget) : SparklineWidget :=
  { componentWillUnmount w with unmounted := true }

/-- The method `retry` (source lines 61-67). -/
def retry (w : SparklineWidget) : SparklineWidget :=
  setTimeout (setState w (fun s => { s with state := states.LOADING }))

/-- The method `updateData` (source lines 134-148).  `newData = none` is `undefined`, on
which `newData.map` raises a `TypeError`. -/
def updateData (w : SparklineWidget) (newData : Option (List Item)) :
    Except JSError SparklineWidget :=
  match newData with
  | none => Except.error JSError.TypeError
  | some newData =>
    let data := newData.map (fun item => ({ date := item.1, value := item.2 } : Sample))
    let sortedValues := lodash_map_value (lodash_sortBy_value data)
    Except.ok (setState w (fun s => { s with data := data
                                             sortedValues := sortedValues
                                             state := states.LOADED }))

/-- The comparison `json.data.result[0].values < 1` (source line 107).  Relational
comparison converts the array to a primitive through `toString`, which joins the
elements with commas, and then to a number: the empty array gives `""`, that is `0`,
and `0 < 1`; an array that holds at least one two-element item gives a string with a
comma, that is `NaN`, and `NaN < 1` is false.  A missing `values` is `undefined`, again
`NaN`. -/
def valuesLtOne : Option (List Item) → Bool
  | none => false
  | some [] => true
  | some (_ :: _) => false

/-- The `.done` handler of `doUpdate` (source lines 96-114).  Reading a property of a
missing `json.data`, or `length` of a missing `json.data.result`, raises a `TypeError`. -/
def doUpdate_done (w : SparklineWidget) (json : Response) : Except JSError SparklineWidget :=
  if !w._isMounted then
    Except.ok w
  else if json.status ≠ "success" then
    Except.ok (setState w (fun s => { s with state := states.BROKEN }))
  else
    match json.data with
    | none => Except.error JSError.TypeError
    | some data =>
      match data.result with
      | none => Except.error JSError.TypeError
      | some [] =>
        Except.ok (setState w (fun s => { s with state := states.NODATA }))
      | some (first :: _) =>
        if valuesLtOne first.values then
          Except.ok (setState w (fun s => { s with state := states.NODATA }))
        else
          updateData w first.values

/-- The `.fail` handler of `doUpdate` (source lines 115-128). -/
def doUpdate_fail (w : SparklineWidget) (textStatus : String) : SparklineWidget :=
  if !w._isMounted then
    w
  else
    let w :=
      if textStatus = "timeout" then
        setState w (fun s => { s with state := states.TIMEDOUT })
      else
        w
    setState w (fun s => { s with state := states.BROKEN })

/-- The `.always` handler of `doUpdate` (source lines 129-131). -/
def doUpdate_always (w : SparklineWidget) : SparklineWidget :=
  { w with updateInProgress := false }

/-- A resolved request: jQuery runs the callbacks registered for success in the order
of registration, `.done` then `.always`; an exception raised by a callback leaves the
list, and the callbacks after it are not run. -/
def resolved (w : SparklineWidget) (json : Response) : Except JSError SparklineWidget :=
  match doUpdate_done w json with
  | Except.ok w => Except.ok (doUpdate_always w)
  | Except.error e => Except.error e

/-- A rejected request: `.fail` then `.always`. -/
def rejected (w : SparklineWidget) (textStatus : String) : SparklineWidget :=
  doUpdate_always (doUpdate_fail w textStatus)

/-- A click on the "Retry" link, which `render` puts on the page only in the state
`TIMEDOUT` (source line 173). -/
def clickRetry (w : SparklineWidget) : SparklineWidget :=
  if isState w states.TIMEDOUT then retry w else w

/-! ## Events -/

/-- What can happen to a widget: the lifecycle calls of the host, a period of an
interval timer elapsing, a call of `retry` and the delayed `update` it schedules, a click
on the retry link, the answer to an outstanding discovery call or range query, and the
mouse handlers of the statistics toggle.  A `Delivery` says how the `discoverService`
call made by that event, if any, answers. -/
inductive Event
  | componentWillMount (d : Delivery)
  | componentDidMount
  | componentWillUnmount
  | intervalFires (h : ℕ) (d : Delivery)
  | retry
  | clickRetry
  | timeoutFires (d : Delivery)
  | discoveryAvailable
  | discoveryUnavailable
  | queryDone (json : Response)
  | queryFail (textStatus : String)
  | setShowStats (value : Bool)
  deriving DecidableEq, Repr

/-- One event.  A timer calls `update` only if it is armed, a delayed call only if one is
scheduled, and an answer is delivered only to a call that is outstanding; otherwise the
event does not occur and nothing changes.  When the `.done` handler raises, the
exception reaches the browser; the handler assigns nothing before it raises, so the
widget is as it was when the answer arrived. -/
def step (w : SparklineWidget) : Event → SparklineWidget
  | Event.componentWillMount d => componentWillMount d w
  | Event.componentDidMount => componentDidMount w
  | Event.componentWillUnmount => unmount w
  | Event.intervalFires h d => if h ∈ w.timers then update d w else w
  | Event.retry => retry w
  | Event.clickRetry => clickRetry w
  | Event.timeoutFires d =>
    if 0 < w.timeouts then update d { w with timeouts := w.timeouts - 1 } else w
  | Event.discoveryAvailable =>
    if 0 < w.pendingDiscovery then
      doUpdate { w with pendingDiscovery := w.pendingDiscovery - 1 }
    else w
  | Event.discoveryUnavailable =>
    if 0 < w.pendingDiscovery then
      doUnavailable { w with pendingDiscovery := w.pendingDiscovery - 1 }
    else w
  | Event.queryDone json =>
    if 0 < w.pendingQuery then
      match resolved { w with pendingQuery := w.pendingQuery - 1 } json with
      | Except.ok w1 => w1
      | Except.error _ => { w with pendingQuery := w.pendingQuery - 1 }
    else w
  | Event.queryFail textStatus =>
    if 0 < w.pendingQuery then
      rejected { w with pendingQuery := w.pendingQuery - 1 } textStatus
    else w
  | Event.setShowStats value => setShowStats w value

/-- A sequence of events, from `w`. -/
def run (w : SparklineWidget) (evs : List Event) : SparklineWidget :=
  evs.foldl step w

/-- The number of fetches in flight: discovery calls and range queries whose answer is
outstanding. -/
def inFlight (w : SparklineWidget) : ℕ :=
  w.pendingDiscovery + w.pendingQuery

/-! ## Auxiliary definitions for the statements -/

/-- A mounted widget whose first discovery call has answered `available`, so that the
range query is outstanding. -/
def queryOutstanding : SparklineWidget :=
  run init [Event.componentWillMount Delivery.deferred, Event.componentDidMount,
    Event.discoveryAvailable]

/-- A mounted widget whose first discovery call is outstanding. -/
def discoveryOutstanding : SparklineWidget :=
  run init [Event.componentWillMount Delivery.deferred, Event.componentDidMount]

/-- The single-flight invariant: at most one fetch is outstanding, and none is while
`updateInProgress` is false. -/
def SingleFlight (w : SparklineWidget) : Prop :=
  inFlight w ≤ 1 ∧ (w.updateInProgress = false → inFlight w = 0)

/-- The loaded invariant: in the state `LOADED` the sample set is not empty. -/
def LoadedHasData (w : SparklineWidget) : Prop :=
  w.state.state = states.LOADED → w.state.data ≠ []

/-- A response that carries what the `.done` handler reads under the status
`'success'`: `data`, `data.result` and, when the result list is not empty, the `values`
of its first series. -/
def wellShaped (json : Response) : Bool :=
  match json.data with
  | some { result := some [] } => true
  | some { result := some ({ values := some _ } :: _) } => true
  | _ => false

/-- The events the page produces by itself or through its retry link: a period of an
interval timer elapsing, a click on the link, a delayed `update` coming due. -/
def timerOrClick : Event → Bool
  | Event.intervalFires _ _ => true
  | Event.clickRetry => true
  | Event.timeoutFires _ => true
  | _ => false

/-- A status-`'success'` response with one series of one sample. -/
def oneSampleResponse : Response :=
  { status := "success", data := some { result := some [{ values := some [(1, "10")] }] } }

/-- A status-`'success'` response without `data`. -/
def noDataResponse : Response :=
  { status := "success", data := none }

/-- A status-`'success'` response whose `data` has no `result`. -/
def noResultResponse : Response :=
  { status := "success", data := some { result := none } }

/-- A status-`'success'` response whose first series has no `values`. -/
def noValuesResponse : Response :=
  { status := "success", data := some { result := some [{ values := none }] } }

/-- A response with the status `'error'`. -/
def errorResponse : Response :=
  { status := "error", data := none }

/-- A status-`'success'` response with an empty result list. -/
def emptyResultResponse : Response :=
  { status := "success", data := some { result := some [] } }

/-- A mounted widget that reached `NOTAVAILABLE` through an answer that came after
`componentWillMount` had returned. -/
def unavailableWidget : SparklineWidget :=
  run discoveryOutstanding [Event.discoveryUnavailable]

/-- The widget left by a status-`'success'` response without `data`, delivered while the
range query was outstanding. -/
def afterNoDataResponse : SparklineWidget :=
  step queryOutstanding (Event.queryDone noDataResponse)

/-- A status-`'success'` response whose one series holds the values 9 and 10 at
ascending timestamps. -/
def nineTenResponse : Response :=
  { status := "success"
    data := some { result := some [{ values := some [(1, "9"), (2, "10")] }] } }

/-- A status-`'success'` response whose one series holds the values 8, 9, 10 and 11 at
ascending timestamps. -/
def eightToElevenResponse : Response :=
  { status := "success"
    data := some
      { result := some [{ values := some [(1, "8"), (2, "9"), (3, "10"), (4, "11")] }] } }

/-- The state object is frozen at `s`: React has unmounted the component and
`this.state` is `s`. -/
def Frozen (s : State) (w : SparklineWidget) : Prop :=
  w.unmounted = true ∧ w.state = s


/-! ## Lemmas -/

theorem run_nil (w : SparklineWidget) : run w [] = w := rfl

theorem run_cons (w : SparklineWidget) (e : Event) (evs : List Event) :
    run w (e :: evs) = run (step w e) evs := rfl

theorem setState_frame (w : SparklineWidget) (patch : State → State) :
    ∃ st, setState w patch = { w with state := st } := by
  unfold setState
  split
  · exact ⟨w.state, rfl⟩
  · exact ⟨_, rfl⟩

theorem setState_of_not_unmounted (w : SparklineWidget) (patch : State → State)
    (h : w.unmounted = false) : setState w patch = { w with state := patch w.state } := by
  simp [setState, h]

theorem clearInterval_frame (w : SparklineWidget) :
    ∃ ts, clearInterval w = { w with timers := ts } := by
  unfold clearInterval
  split
  · exact ⟨w.timers, rfl⟩
  · exact ⟨_, rfl⟩

theorem doUnavailable_frame (w : SparklineWidget) :
    ∃ ts st, doUnavailable w =
      { w with updateInProgress := false
               timers := ts
               state := st } := by
  obtain ⟨ts, hts⟩ := clearInterval_frame { w with updateInProgress := false }
  obtain ⟨st, hst⟩ := setState_frame (clearInterval { w with updateInProgress := false })
    (fun s => { s with state := states.NOTAVAILABLE })
  refine ⟨ts, st, ?_⟩
  simp only [doUnavailable, hst]
  rw [hts]

theorem doUpdate_fail_frame (w : SparklineWidget) (textStatus : String) :
    ∃ st, doUpdate_fail w textStatus = { w with state := st } := by
  unfold doUpdate_fail
  split
  · exact ⟨w.state, rfl⟩
  · simp only
    split
    · obtain ⟨st1, h1⟩ := setState_frame w (fun s => { s with state := states.TIMEDOUT })
      rw [h1]
      obtain ⟨st2, h2⟩ := setState_frame { w with state := st1 }
        (fun s => { s with state := states.BROKEN })
      exact ⟨st2, h2⟩
    · exact setState_frame w _

theorem updateData_frame (w w1 : SparklineWidget) (newData : Option (List Item))
    (h : updateData w newData = Except.ok w1) : ∃ st, w1 = { w with state := st } := by
  unfold updateData at h
  split at h
  · simp at h
  · simp only [Except.ok.injEq] at h
    obtain ⟨st, hst⟩ := setState_frame w _
    exact ⟨st, by rw [← h, hst]⟩

theorem doUpdate_done_frame (w w1 : SparklineWidget) (json : Response)
    (h : doUpdate_done w json = Except.ok w1) : ∃ st, w1 = { w with state := st } := by
  unfold doUpdate_done at h
  split at h
  · simp only [Except.ok.injEq] at h
    exact ⟨w.state, h.symm⟩
  · split at h
    · simp only [Except.ok.injEq] at h
      obtain ⟨st, hst⟩ := setState_frame w _
      exact ⟨st, by rw [← h, hst]⟩
    · split at h
      · simp at h
      · split at h
        · simp at h
        · simp only [Except.ok.injEq] at h
          obtain ⟨st, hst⟩ := setState_frame w _
          exact ⟨st, by rw [← h, hst]⟩
        · split at h
          · simp only [Except.ok.injEq] at h
            obtain ⟨st, hst⟩ := setState_frame w _
            exact ⟨st, by rw [← h, hst]⟩
          · exact updateData_frame w w1 _ h

theorem resolved_frame (w w1 : SparklineWidget) (json : Response)
    (h : resolved w json = Except.ok w1) :
    ∃ st, w1 = { w with state := st, updateInProgress := false } := by
  unfold resolved at h
  split at h
  · rename_i w2 hw2
    obtain ⟨st, hst⟩ := doUpdate_done_frame w w2 json hw2
    simp only [Except.ok.injEq] at h
    exact ⟨st, by rw [← h, hst]; rfl⟩
  · simp at h

theorem rejected_frame (w : SparklineWidget) (textStatus : String) :
    ∃ st, rejected w textStatus = { w with state := st, updateInProgress := false } := by
  obtain ⟨s, hs⟩ := doUpdate_fail_frame w textStatus
  exact ⟨_, by rw [rejected, hs]; rfl⟩

theorem singleFlight_setState (w : SparklineWidget) (patch : State → State)
    (h : SingleFlight w) : SingleFlight (setState w patch) := by
  obtain ⟨st, hst⟩ := setState_frame w patch
  rw [hst]
  exact h

theorem singleFlight_update (d : Delivery) (w : SparklineWidget) (h : SingleFlight w) :
    SingleFlight (update d w) := by
  obtain ⟨h1, h2⟩ := h
  unfold update
  split
  · exact ⟨h1, h2⟩
  · rename_i hp
    have h0 := h2 (by simpa using hp)
    cases d
    · simp only [SingleFlight, inFlight, discoverService] at *
      exact ⟨by omega, fun hf => by simp at hf⟩
    · simp only [SingleFlight, inFlight, discoverService, doUpdate] at *
      exact ⟨by omega, fun hf => by simp at hf⟩
    · obtain ⟨ts, st, hts⟩ := doUnavailable_frame
        { w with updateInProgress := true, discoveryCalls := w.discoveryCalls + 1 }
      simp only [SingleFlight, inFlight, discoverService, hts] at *
      exact ⟨by omega, fun _ => by omega⟩

theorem singleFlight_step (w : SparklineWidget) (e : Event) (h : SingleFlight w) :
    SingleFlight (step w e) := by
  cases e with
  | componentWillMount d =>
    exact singleFlight_update d _ (singleFlight_setState w _ h)
  | componentDidMount => exact h
  | componentWillUnmount =>
    obtain ⟨ts, hts⟩ := clearInterval_frame { w with _isMounted := false }
    simp only [step, unmount, componentWillUnmount, hts]
    exact h
  | intervalFires t d =>
    simp only [step]
    split
    · exact singleFlight_update d w h
    · exact h
  | retry => exact singleFlight_setState w _ h
  | clickRetry =>
    simp only [step, clickRetry]
    split
    · exact singleFlight_setState w _ h
    · exact h
  | timeoutFires d =>
    simp only [step]
    split
    · exact singleFlight_update d { w with timeouts := w.timeouts - 1 } h
    · exact h
  | discoveryAvailable =>
    obtain ⟨h1, h2⟩ := h
    simp only [step]
    split
    · refine ⟨?_, ?_⟩
      · simp only [inFlight, doUpdate] at *; omega
      · intro hp
        have := h2 hp
        simp only [inFlight, doUpdate] at *; omega
    · exact ⟨h1, h2⟩
  | discoveryUnavailable =>
    obtain ⟨h1, h2⟩ := h
    simp only [step]
    split
    · obtain ⟨ts, st, hts⟩ := doUnavailable_frame
        { w with pendingDiscovery := w.pendingDiscovery - 1 }
      simp only [SingleFlight, inFlight, hts] at *
      exact ⟨by omega, fun _ => by omega⟩
    · exact ⟨h1, h2⟩
  | queryDone json =>
    obtain ⟨h1, h2⟩ := h
    simp only [step]
    split
    · split
      · rename_i w1 hw1
        obtain ⟨st, hst⟩ := resolved_frame _ w1 json hw1
        simp only [SingleFlight, inFlight, hst] at *
        exact ⟨by omega, fun _ => by omega⟩
      · simp only [SingleFlight, inFlight] at *
        exact ⟨by omega, fun hp => by have := h2 hp; omega⟩
    · exact ⟨h1, h2⟩
  | queryFail textStatus =>
    obtain ⟨h1, h2⟩ := h
    simp only [step]
    split
    · obtain ⟨st, hst⟩ := rejected_frame { w with pendingQuery := w.pendingQuery - 1 } textStatus
      simp only [SingleFlight, inFlight, hst] at *
      exact ⟨by omega, fun _ => by omega⟩
    · exact ⟨h1, h2⟩
  | setShowStats value => exact singleFlight_setState w _ h

theorem singleFlight_run (evs : List Event) (w : SparklineWidget) (h : SingleFlight w) :
    SingleFlight (run w evs) := by
  induction evs generalizing w with
  | nil => exact h
  | cons e evs ih => exact ih (step w e) (singleFlight_step w e h)

theorem loadedHasData_setState_state (w : SparklineWidget) (x : states)
    (hx : x ≠ states.LOADED) (h : LoadedHasData w) :
    LoadedHasData (setState w (fun s => { s with state := x })) := by
  unfold setState
  split
  · exact h
  · intro hl
    exact absurd hl hx

theorem loadedHasData_clearInterval (w : SparklineWidget) (h : LoadedHasData w) :
    LoadedHasData (clearInterval w) := by
  obtain ⟨ts, hts⟩ := clearInterval_frame w
  rw [hts]
  exact h

theorem loadedHasData_doUnavailable (w : SparklineWidget) (h : LoadedHasData w) :
    LoadedHasData (doUnavailable w) :=
  loadedHasData_setState_state _ _ (by decide)
    (loadedHasData_clearInterval { w with updateInProgress := false } h)

theorem loadedHasData_update (d : Delivery) (w : SparklineWidget) (h : LoadedHasData w) :
    LoadedHasData (update d w) := by
  unfold update
  split
  · exact h
  · cases d
    · exact h
    · exact h
    · exact loadedHasData_doUnavailable
        { w with updateInProgress := true, discoveryCalls := w.discoveryCalls + 1 } h

theorem loadedHasData_updateData (w w1 : SparklineWidget) (newData : Option (List Item))
    (hw : LoadedHasData w) (hv : valuesLtOne newData = false)
    (h : updateData w newData = Except.ok w1) : LoadedHasData w1 := by
  unfold updateData at h
  split at h
  · simp at h
  · rename_i items
    simp only [Except.ok.injEq] at h
    subst h
    unfold setState
    split
    · exact hw
    · intro _
      cases items with
      | nil => simp [valuesLtOne] at hv
      | cons item rest => simp

theorem loadedHasData_done (w w1 : SparklineWidget) (json : Response) (h : LoadedHasData w)
    (hd : doUpdate_done w json = Except.ok w1) : LoadedHasData w1 := by
  unfold doUpdate_done at hd
  split at hd
  · simp only [Except.ok.injEq] at hd
    subst hd
    exact h
  · split at hd
    · simp only [Except.ok.injEq] at hd
      subst hd
      exact loadedHasData_setState_state w _ (by decide) h
    · split at hd
      · simp at hd
      · split at hd
        · simp at hd
        · simp only [Except.ok.injEq] at hd
          subst hd
          exact loadedHasData_setState_state w _ (by decide) h
        · split at hd
          · simp only [Except.ok.injEq] at hd
            subst hd
            exact loadedHasData_setState_state w _ (by decide) h
          · rename_i hv
            exact loadedHasData_updateData w w1 _ h (by simpa using hv) hd

theorem loadedHasData_fail (w : SparklineWidget) (textStatus : String) (h : LoadedHasData w) :
    LoadedHasData (doUpdate_fail w textStatus) := by
  unfold doUpdate_fail
  split
  · exact h
  · simp only
    split
    · exact loadedHasData_setState_state _ _ (by decide)
        (loadedHasData_setState_state w _ (by decide) h)
    · exact loadedHasData_setState_state w _ (by decide) h

theorem loadedHasData_setShowStats (w : SparklineWidget) (value : Bool)
    (h : LoadedHasData w) : LoadedHasData (setShowStats w value) := by
  unfold setShowStats setState
  split
  · exact h
  · exact h

theorem loadedHasData_step (w : SparklineWidget) (e : Event) (h : LoadedHasData w) :
    LoadedHasData (step w e) := by
  cases e with
  | componentWillMount d =>
    exact loadedHasData_update d _ (loadedHasData_setState_state w _ (by decide) h)
  | componentDidMount => exact h
  | componentWillUnmount =>
    exact loadedHasData_clearInterval { w with _isMounted := false } h
  | intervalFires t d =>
    simp only [step]
    split
    · exact loadedHasData_update d w h
    · exact h
  | retry => exact loadedHasData_setState_state w _ (by decide) h
  | clickRetry =>
    simp only [step, clickRetry]
    split
    · exact loadedHasData_setState_state w _ (by decide) h
    · exact h
  | timeoutFires d =>
    simp only [step]
    split
    · exact loadedHasData_update d { w with timeouts := w.timeouts - 1 } h
    · exact h
  | discoveryAvailable =>
    simp only [step]
    split
    · exact h
    · exact h
  | discoveryUnavailable =>
    simp only [step]
    split
    · exact loadedHasData_doUnavailable { w with pendingDiscovery := w.pendingDiscovery - 1 } h
    · exact h
  | queryDone json =>
    simp only [step]
    split
    · split
      · rename_i w1 hw1
        unfold resolved at hw1
        split at hw1
        · rename_i w2 hw2
          simp only [Except.ok.injEq] at hw1
          subst hw1
          exact loadedHasData_done { w with pendingQuery := w.pendingQuery - 1 } w2 json h hw2
        · simp at hw1
      · exact h
    · exact h
  | queryFail textStatus =>
    simp only [step]
    split
    · exact loadedHasData_fail { w with pendingQuery := w.pendingQuery - 1 } textStatus h
    · exact h
  | setShowStats value => exact loadedHasData_setShowStats w value h

theorem loadedHasData_run (evs : List Event) (w : SparklineWidget) (h : LoadedHasData w) :
    LoadedHasData (run w evs) := by
  induction evs generalizing w with
  | nil => exact h
  | cons e evs ih => exact ih (step w e) (loadedHasData_step w e h)

theorem doUnavailable_timers (w : SparklineWidget)
    (h : ∀ t ∈ w.timers, w.interval = some t) : (doUnavailable w).timers = [] := by
  obtain ⟨st, hst⟩ := setState_frame (clearInterval { w with updateInProgress := false })
    (fun s => { s with state := states.NOTAVAILABLE })
  simp only [doUnavailable, hst]
  unfold clearInterval
  cases hi : w.interval with
  | none =>
    simp only
    cases ht : w.timers with
    | nil => rfl
    | cons t ts =>
      have := h t (by simp [ht])
      simp [hi] at this
  | some t0 =>
    simp only [List.filter_eq_nil_iff]
    intro t ht
    have := h t ht
    rw [hi] at this
    simp only [Option.some.injEq] at this
    simp [this]

theorem clearInterval_unmounted (w : SparklineWidget) :
    (clearInterval w).unmounted = w.unmounted := by
  obtain ⟨ts, hts⟩ := clearInterval_frame w
  rw [hts]

theorem doUnavailable_state (w : SparklineWidget) (hu : w.unmounted = false) :
    (doUnavailable w).state.state = states.NOTAVAILABLE := by
  have h := clearInterval_unmounted { w with updateInProgress := false }
  simp only [doUnavailable]
  rw [setState_of_not_unmounted _ _ (by rw [h]; exact hu)]

theorem doUnavailable_counters (w : SparklineWidget) :
    (doUnavailable w).timeouts = w.timeouts ∧
    (doUnavailable w).discoveryCalls = w.discoveryCalls ∧
    (doUnavailable w).queriesSent = w.queriesSent := by
  obtain ⟨ts, st, hts⟩ := doUnavailable_frame w
  rw [hts]
  exact ⟨rfl, rfl, rfl⟩

theorem step_timerOrClick_idle (w : SparklineWidget) (e : Event)
    (hs : w.state.state = states.NOTAVAILABLE) (ht : w.timers = []) (hto : w.timeouts = 0)
    (he : timerOrClick e = true) : step w e = w := by
  cases e <;> simp [timerOrClick] at he
  · simp [step, ht]
  · simp [step, clickRetry, isState, hs]
  · simp [step, hto]

theorem run_timerOrClick_idle (evs : List Event) (w : SparklineWidget)
    (hs : w.state.state = states.NOTAVAILABLE) (ht : w.timers = []) (hto : w.timeouts = 0)
    (he : ∀ e ∈ evs, timerOrClick e = true) : run w evs = w := by
  induction evs with
  | nil => rfl
  | cons e evs ih =>
    rw [run_cons, step_timerOrClick_idle w e hs ht hto (he e (by simp))]
    exact ih (fun e1 h1 => he e1 (by simp [h1]))

theorem doUpdate_done_isOk (w : SparklineWidget) (json : Response)
    (h : w._isMounted = false ∨ json.status ≠ "success" ∨ wellShaped json = true) :
    ∃ w1, doUpdate_done w json = Except.ok w1 := by
  cases hm : w._isMounted with
  | false => exact ⟨w, by simp [doUpdate_done, hm]⟩
  | true =>
    by_cases hs : json.status = "success"
    · have hw : wellShaped json = true := by
        rcases h with h | h | h
        · simp [hm] at h
        · exact absurd hs h
        · exact h
      obtain ⟨status, data⟩ := json
      simp only at hs
      subst hs
      match data, hw with
      | some { result := some [] }, _ => simp [doUpdate_done, hm]
      | some { result := some ({ values := some [] } :: _) }, _ =>
        simp [doUpdate_done, hm, valuesLtOne]
      | some { result := some ({ values := some (_ :: _) } :: _) }, _ =>
        simp [doUpdate_done, hm, valuesLtOne, updateData]
    · exact ⟨setState w (fun s => { s with state := states.BROKEN }),
        by simp [doUpdate_done, hm, hs]⟩

theorem frozen_setState (s : State) (w : SparklineWidget) (patch : State → State)
    (h : Frozen s w) : setState w patch = w := by
  simp [setState, h.1]

theorem frozen_clearInterval (s : State) (w : SparklineWidget) (h : Frozen s w) :
    Frozen s (clearInterval w) := by
  obtain ⟨ts, hts⟩ := clearInterval_frame w
  rw [hts]
  exact h

theorem frozen_doUnavailable (s : State) (w : SparklineWidget) (h : Frozen s w) :
    Frozen s (doUnavailable w) := by
  have h1 : Frozen s (clearInterval { w with updateInProgress := false }) :=
    frozen_clearInterval s _ h
  simp only [doUnavailable]
  rw [frozen_setState s _ _ h1]
  exact h1

theorem frozen_update (s : State) (d : Delivery) (w : SparklineWidget) (h : Frozen s w) :
    Frozen s (update d w) := by
  unfold update
  split
  · exact h
  · cases d
    · exact h
    · exact h
    · exact frozen_doUnavailable s
        { w with updateInProgress := true, discoveryCalls := w.discoveryCalls + 1 } h

theorem frozen_done (s : State) (w w1 : SparklineWidget) (json : Response) (h : Frozen s w)
    (hd : doUpdate_done w json = Except.ok w1) : w1 = w := by
  unfold doUpdate_done at hd
  split at hd
  · simp only [Except.ok.injEq] at hd
    exact hd.symm
  · split at hd
    · simp only [Except.ok.injEq] at hd
      rw [← hd, frozen_setState s w _ h]
    · split at hd
      · simp at hd
      · split at hd
        · simp at hd
        · simp only [Except.ok.injEq] at hd
          rw [← hd, frozen_setState s w _ h]
        · split at hd
          · simp only [Except.ok.injEq] at hd
            rw [← hd, frozen_setState s w _ h]
          · unfold updateData at hd
            split at hd
            · simp at hd
            · simp only [Except.ok.injEq] at hd
              rw [← hd, frozen_setState s w _ h]

theorem frozen_fail (s : State) (w : SparklineWidget) (textStatus : String)
    (h : Frozen s w) : doUpdate_fail w textStatus = w := by
  unfold doUpdate_fail
  split
  · rfl
  · simp only
    split
    · rw [frozen_setState s w _ h, frozen_setState s w _ h]
    · rw [frozen_setState s w _ h]

theorem frozen_step (s : State) (w : SparklineWidget) (e : Event) (h : Frozen s w) :
    Frozen s (step w e) := by
  cases e with
  | componentWillMount d =>
    simp only [step, componentWillMount]
    rw [frozen_setState s w _ h]
    exact frozen_update s d w h
  | componentDidMount => exact h
  | componentWillUnmount =>
    have := frozen_clearInterval s { w with _isMounted := false } h
    exact ⟨rfl, this.2⟩
  | intervalFires t d =>
    simp only [step]
    split
    · exact frozen_update s d w h
    · exact h
  | retry =>
    simp only [step, retry]
    rw [frozen_setState s w _ h]
    exact h
  | clickRetry =>
    simp only [step, clickRetry]
    split
    · simp only [retry]
      rw [frozen_setState s w _ h]
      exact h
    · exact h
  | timeoutFires d =>
    simp only [step]
    split
    · exact frozen_update s d { w with timeouts := w.timeouts - 1 } h
    · exact h
  | discoveryAvailable =>
    simp only [step]
    split
    · exact h
    · exact h
  | discoveryUnavailable =>
    simp only [step]
    split
    · exact frozen_doUnavailable s { w with pendingDiscovery := w.pendingDiscovery - 1 } h
    · exact h
  | queryDone json =>
    simp only [step]
    split
    · split
      · rename_i w1 hw1
        unfold resolved at hw1
        split at hw1
        · rename_i w2 hw2
          simp only [Except.ok.injEq] at hw1
          have h2 := frozen_done s { w with pendingQuery := w.pendingQuery - 1 } w2 json h hw2
          rw [← hw1, h2]
          exact h
        · simp at hw1
      · exact h
    · exact h
  | queryFail textStatus =>
    simp only [step]
    split
    · simp only [rejected]
      rw [frozen_fail s { w with pendingQuery := w.pendingQuery - 1 } textStatus h]
      exact h
    · exact h
  | setShowStats value =>
    simp only [step, setShowStats]
    rw [frozen_setState s w _ h]
    exact h

theorem frozen_run (s : State) (evs : List Event) (w : SparklineWidget) (h : Frozen s w) :
    Frozen s (run w evs) := by
  induction evs generalizing w with
  | nil => exact h
  | cons e evs ih => exact ih (step w e) (frozen_step s w e h)

theorem frozen_unmount (w : SparklineWidget) : Frozen w.state (unmount w) := by
  obtain ⟨ts, hts⟩ := clearInterval_frame { w with _isMounted := false }
  simp only [unmount, componentWillUnmount, hts]
  exact ⟨rfl, rfl⟩

/-! ## The claims -/

/-- C1, as the code behaves: on a mounted widget in the state `LOADING` the `.fail`
handler called with `textStatus = 'timeout'` leaves the state `BROKEN`, not `TIMEDOUT`;
the assignment of `TIMEDOUT` is overwritten by the unconditional assignment that
follows it, and this is so for every mounted widget. -/
theorem fail_timeout_ends_BROKEN :
    queryOutstanding._isMounted = true ∧
    queryOutstanding.unmounted = false ∧
    queryOutstanding.state.state = states.LOADING ∧
    (doUpdate_fail queryOutstanding "timeout").state.state = states.BROKEN ∧
    (step queryOutstanding (Event.queryFail "timeout")).state.state = states.BROKEN ∧
    ∀ w : SparklineWidget,
      (doUpdate_fail { w with _isMounted := true, unmounted := false } "timeout").state.state
        = states.BROKEN := by
  refine ⟨by decide, by decide, by decide, by decide, by decide, ?_⟩
  intro w
  simp [doUpdate_fail, setState]

/-- C2: starting from the constructed widget, after every sequence of events at most one
fetch (discovery call or range query) is outstanding; and a call of `update` made while
`updateInProgress` is true returns the widget and its browser-side bookkeeping
unchanged, so that no discovery call or query is started. -/
theorem single_flight :
    (∀ evs : List Event, inFlight (run init evs) ≤ 1) ∧
    (∀ (w : SparklineWidget) (d : Delivery), w.updateInProgress = true → update d w = w) := by
  refine ⟨fun evs => ?_, fun w d h => ?_⟩
  · exact (singleFlight_run evs init ⟨by decide, fun _ => by decide⟩).1
  · simp [update, h]

/-- Witness of C2: a second tick while the first discovery call is outstanding. -/
theorem single_flight_witness :
    inFlight (run init [Event.componentWillMount Delivery.deferred,
      Event.intervalFires 0 Delivery.deferred, Event.retry,
      Event.timeoutFires Delivery.available]) ≤ 1 ∧
    update Delivery.deferred discoveryOutstanding = discoveryOutstanding :=
  ⟨single_flight.1 _, single_flight.2 discoveryOutstanding Delivery.deferred (by decide)⟩

/-- C3: once React has unmounted the component (`componentWillUnmount` has run), the
state object, that is the widget state, the sample set and the sorted values, is left
as it was by every sequence of events, and in particular by every outcome: the answer
`unavailable` goes through `setState`, which changes nothing on an unmounted
component, and the `.done` and `.fail` handlers return at their `_isMounted` test.  On
the widget unmounted while its first discovery call was outstanding, the answer
`unavailable` is delivered and the state stays `LOADING`. -/
theorem post_teardown_silence (w : SparklineWidget) :
    (∀ evs : List Event, (run (unmount w) evs).state = w.state) ∧
    (doUnavailable (unmount w)).state = w.state ∧
    (∀ json : Response, doUpdate_done (unmount w) json = Except.ok (unmount w)) ∧
    (∀ textStatus : String, doUpdate_fail (unmount w) textStatus = unmount w) ∧
    (run discoveryOutstanding
      [Event.componentWillUnmount, Event.discoveryUnavailable]).pendingDiscovery = 0 ∧
    (run discoveryOutstanding
      [Event.componentWillUnmount, Event.discoveryUnavailable]).state.state
        = states.LOADING := by
  have hf := frozen_unmount w
  have hm : (unmount w)._isMounted = false := by
    obtain ⟨ts, hts⟩ := clearInterval_frame { w with _isMounted := false }
    simp only [unmount, componentWillUnmount, hts]
  refine ⟨fun evs => (frozen_run w.state evs _ hf).2, (frozen_doUnavailable w.state _ hf).2,
    fun json => ?_, fun textStatus => ?_, by decide, by decide⟩
  · simp [doUpdate_done, hm]
  · simp [doUpdate_fail, hm]

/-- C5, as the code behaves: when the first discovery call answers `unavailable` before
it returns, `componentWillMount` ends in the state `NOTAVAILABLE` with the interval
timer armed (`doUnavailable` ran while `this.interval` was still `null`), and the next
period of that timer starts a second discovery call.  When the answer comes after
`componentWillMount` has returned, no timer is left armed. -/
theorem sync_unavailable_leaves_timer_armed :
    (componentWillMount Delivery.unavailable init).state.state = states.NOTAVAILABLE ∧
    (componentWillMount Delivery.unavailable init).timers = [0] ∧
    (run init [Event.componentWillMount Delivery.unavailable,
      Event.intervalFires 0 Delivery.deferred]).discoveryCalls = 2 ∧
    (run init [Event.componentWillMount Delivery.deferred,
      Event.discoveryUnavailable]).state.state = states.NOTAVAILABLE ∧
    (run init [Event.componentWillMount Delivery.deferred,
      Event.discoveryUnavailable]).timers = [] := by
  decide

/-- C7: in every state reached from the constructed widget by a sequence of events,
if the widget state is `LOADED` then `state.data` is not empty. -/
theorem loaded_invariant (evs : List Event)
    (h : (run init evs).state.state = states.LOADED) : (run init evs).state.data ≠ [] :=
  loadedHasData_run evs init (by intro hl; simp [init] at hl) h

/-- Witness of C7: a widget that has loaded one sample. -/
theorem loaded_invariant_witness :
    (run init [Event.componentWillMount Delivery.deferred, Event.componentDidMount,
      Event.discoveryAvailable, Event.queryDone oneSampleResponse]).state.state
        = states.LOADED ∧
    (run init [Event.componentWillMount Delivery.deferred, Event.componentDidMount,
      Event.discoveryAvailable, Event.queryDone oneSampleResponse]).state.data ≠ [] :=
  ⟨by decide, loaded_invariant _ (by decide)⟩

/-- C4 as stated fails: on a mounted widget in the state `NOTAVAILABLE` a call of `retry`
puts the state back to `LOADING`, and the delayed `update` it schedules starts a further
discovery call. -/
theorem retry_leaves_NOTAVAILABLE :
    unavailableWidget.state.state = states.NOTAVAILABLE ∧
    unavailableWidget.unmounted = false ∧
    (run unavailableWidget [Event.retry]).state.state = states.LOADING ∧
    (run unavailableWidget [Event.retry, Event.timeoutFires Delivery.deferred]).discoveryCalls
      = unavailableWidget.discoveryCalls + 1 := by
  decide

/-- C4, amended: when `doUnavailable` runs on a widget that React has not unmounted,
whose armed interval timers are the one held in `this.interval`, and no delayed `update`
is scheduled, then after every sequence of elapsed timer periods, clicks on the retry
link and delayed calls coming due, the widget is exactly as `doUnavailable` left it: the
state is `NOTAVAILABLE` and no discovery call or range query has been started. -/
theorem unavailable_is_sticky (w : SparklineWidget) (evs : List Event)
    (hmounted : w.unmounted = false)
    (htimers : ∀ t ∈ w.timers, w.interval = some t) (htimeouts : w.timeouts = 0)
    (hevs : ∀ e ∈ evs, timerOrClick e = true) :
    run (doUnavailable w) evs = doUnavailable w ∧
    (run (doUnavailable w) evs).state.state = states.NOTAVAILABLE ∧
    (run (doUnavailable w) evs).discoveryCalls = w.discoveryCalls ∧
    (run (doUnavailable w) evs).queriesSent = w.queriesSent := by
  have hc := doUnavailable_counters w
  have hrun := run_timerOrClick_idle evs (doUnavailable w) (doUnavailable_state w hmounted)
    (doUnavailable_timers w htimers) (by rw [hc.1, htimeouts]) hevs
  refine ⟨hrun, ?_, ?_, ?_⟩
  · rw [hrun]
    exact doUnavailable_state w hmounted
  · rw [hrun]
    exact hc.2.1
  · rw [hrun]
    exact hc.2.2

/-- Witness of C4, amended: the mounted widget whose first discovery call is
outstanding, followed by a timer period, a click and a delayed call. -/
theorem unavailable_is_sticky_witness :
    discoveryOutstanding.unmounted = false ∧
    (∀ t ∈ discoveryOutstanding.timers, discoveryOutstanding.interval = some t) ∧
    discoveryOutstanding.timeouts = 0 ∧
    (∀ e ∈ [Event.intervalFires 0 Delivery.deferred, Event.clickRetry,
      Event.timeoutFires Delivery.deferred], timerOrClick e = true) ∧
    (run (doUnavailable discoveryOutstanding)
      [Event.intervalFires 0 Delivery.deferred, Event.clickRetry,
        Event.timeoutFires Delivery.deferred]).state.state = states.NOTAVAILABLE :=
  ⟨by decide, by decide, by decide, by decide,
    (unavailable_is_sticky discoveryOutstanding
      [Event.intervalFires 0 Delivery.deferred, Event.clickRetry,
        Event.timeoutFires Delivery.deferred] (by decide) (by decide) (by decide)
      (by decide)).2.1⟩

/-- C6 as stated fails: on a mounted widget the `.done` handler raises a `TypeError` for
a status-`'success'` response in which `data`, `data.result` or the `values` of the
first series is missing, and the state is not set to `BROKEN`. -/
theorem done_raises_on_missing_parts :
    queryOutstanding._isMounted = true ∧
    doUpdate_done queryOutstanding noDataResponse = Except.error JSError.TypeError ∧
    doUpdate_done queryOutstanding noResultResponse = Except.error JSError.TypeError ∧
    doUpdate_done queryOutstanding noValuesResponse = Except.error JSError.TypeError ∧
    (step queryOutstanding (Event.queryDone noDataResponse)).state.state = states.LOADING :=
  ⟨by decide, rfl, rfl, rfl, by decide⟩

/-- C6, amended: on a mounted widget the `.done` handler completes and sets `BROKEN` for
every response whose status is not `'success'`, completes and sets `NODATA` or `LOADED`
for every well-shaped status-`'success'` response, and raises a `TypeError` for every
other status-`'success'` response.  Mounted: `componentDidMount` has set `_isMounted`
and React has not unmounted the component. -/
theorem done_converts_well_shaped (w : SparklineWidget) (json : Response)
    (hm : w._isMounted = true) (hu : w.unmounted = false) :
    (json.status ≠ "success" →
      doUpdate_done w json
        = Except.ok { w with state := { w.state with state := states.BROKEN } }) ∧
    (json.status = "success" → wellShaped json = true →
      ∃ w1, doUpdate_done w json = Except.ok w1 ∧
        (w1.state.state = states.NODATA ∨ w1.state.state = states.LOADED)) ∧
    (json.status = "success" → wellShaped json = false →
      doUpdate_done w json = Except.error JSError.TypeError) := by
  refine ⟨fun hs => ?_, fun hs hw => ?_, fun hs hw => ?_⟩
  · simp [doUpdate_done, setState, hm, hu, hs]
  · obtain ⟨status, data⟩ := json
    simp only at hs
    subst hs
    match data, hw with
    | some { result := some [] }, _ => simp [doUpdate_done, setState, hm, hu]
    | some { result := some ({ values := some [] } :: _) }, _ =>
      simp [doUpdate_done, setState, hm, hu, valuesLtOne]
    | some { result := some ({ values := some (_ :: _) } :: _) }, _ =>
      simp [doUpdate_done, setState, hm, hu, valuesLtOne, updateData]
  · obtain ⟨status, data⟩ := json
    simp only at hs
    subst hs
    match data, hw with
    | none, _ => simp [doUpdate_done, hm]
    | some { result := none }, _ => simp [doUpdate_done, hm]
    | some { result := some ({ values := none } :: _) }, _ =>
      simp [doUpdate_done, hm, valuesLtOne, updateData]

/-- Witness of C6, amended: a response with the status `'error'`, a well-shaped one and
one without `data`, on the widget whose range query is outstanding. -/
theorem done_converts_well_shaped_witness :
    queryOutstanding._isMounted = true ∧
    queryOutstanding.unmounted = false ∧
    errorResponse.status ≠ "success" ∧
    (oneSampleResponse.status = "success" ∧ wellShaped oneSampleResponse = true) ∧
    (noDataResponse.status = "success" ∧ wellShaped noDataResponse = false) ∧
    doUpdate_done queryOutstanding errorResponse
      = Except.ok { queryOutstanding with
          state := { queryOutstanding.state with state := states.BROKEN } } ∧
    (∃ w1, doUpdate_done queryOutstanding oneSampleResponse = Except.ok w1 ∧
      (w1.state.state = states.NODATA ∨ w1.state.state = states.LOADED)) ∧
    doUpdate_done queryOutstanding noDataResponse = Except.error JSError.TypeError :=
  ⟨by decide, by decide, by decide, by decide, by decide,
    (done_converts_well_shaped queryOutstanding errorResponse (by decide) (by decide)).1
      (by decide),
    (done_converts_well_shaped queryOutstanding oneSampleResponse (by decide)
      (by decide)).2.1 (by decide) (by decide),
    (done_converts_well_shaped queryOutstanding noDataResponse (by decide) (by decide)).2.2
      (by decide) (by decide)⟩

/-- C8, as the code behaves: for the series with the values 9 and 10 at ascending
timestamps `updateData` stores `state.sortedValues = ["10", "9"]`, and for the values
8, 9, 10, 11 it stores `["10", "11", "8", "9"]`: `_.sortBy` compares the value strings
as strings, and `"10"` is less than `"9"` as a string.  `state.sortedValues`, from
which the 95th percentile is read, is therefore not in ascending numeric order. -/
theorem sortedValues_in_string_order :
    (step queryOutstanding (Event.queryDone nineTenResponse)).state.state = states.LOADED ∧
    (step queryOutstanding (Event.queryDone nineTenResponse)).state.data
      = [{ date := 1, value := "9" }, { date := 2, value := "10" }] ∧
    (step queryOutstanding (Event.queryDone nineTenResponse)).state.sortedValues
      = ["10", "9"] ∧
    (step queryOutstanding (Event.queryDone eightToElevenResponse)).state.sortedValues
      = ["10", "11", "8", "9"] ∧
    stringLt "10" "9" = true := by
  decide

/-- C9 as stated fails: a status-`'success'` response without `data` is delivered to the
outstanding range query, the `.done` handler raises, the `.always` handler registered
after it is not run, and `updateInProgress` stays true; the next period of the armed
timer then starts no fetch. -/
theorem malformed_success_keeps_updateInProgress :
    queryOutstanding.pendingQuery = 1 ∧
    afterNoDataResponse.pendingQuery = 0 ∧
    afterNoDataResponse.updateInProgress = true ∧
    0 ∈ afterNoDataResponse.timers ∧
    step afterNoDataResponse (Event.intervalFires 0 Delivery.deferred)
      = afterNoDataResponse := by
  decide

/-- C9, amended: once the outcome of a fetch is delivered, `updateInProgress` is false,
for the answer `unavailable` of a discovery call, for a failed range query whatever the
`textStatus`, and for a resolved range query whose `.done` handler completes, that is
when the widget is no longer mounted, the status is not `'success'` or the response is
well shaped; and a call of `update` made while `updateInProgress` is false starts a
discovery call. -/
theorem outcome_clears_updateInProgress (w : SparklineWidget) :
    (0 < w.pendingDiscovery →
      (step w Event.discoveryUnavailable).updateInProgress = false) ∧
    (∀ json : Response, 0 < w.pendingQuery →
      (w._isMounted = false ∨ json.status ≠ "success" ∨ wellShaped json = true) →
      (step w (Event.queryDone json)).updateInProgress = false) ∧
    (∀ textStatus : String, 0 < w.pendingQuery →
      (step w (Event.queryFail textStatus)).updateInProgress = false) ∧
    (∀ d : Delivery, w.updateInProgress = false →
      (update d w).discoveryCalls = w.discoveryCalls + 1) := by
  refine ⟨fun hp => ?_, fun json hp hj => ?_, fun textStatus hp => ?_, fun d hu => ?_⟩
  · obtain ⟨ts, st, hts⟩ := doUnavailable_frame
      { w with pendingDiscovery := w.pendingDiscovery - 1 }
    simp only [step, hp, if_true, hts]
  · obtain ⟨w1, hw1⟩ := doUpdate_done_isOk
      { w with pendingQuery := w.pendingQuery - 1 } json hj
    simp only [step, hp, if_true, resolved, hw1, doUpdate_always]
  · obtain ⟨st, hst⟩ := rejected_frame { w with pendingQuery := w.pendingQuery - 1 } textStatus
    simp only [step, hp, if_true, hst]
  · cases d
    · simp [update, hu, discoverService]
    · simp [update, hu, discoverService, doUpdate]
    · obtain ⟨ts, st, hts⟩ := doUnavailable_frame
        { w with updateInProgress := true, discoveryCalls := w.discoveryCalls + 1 }
      simp [update, hu, discoverService, hts]

/-- Witness of C9, amended: the outcomes of the first fetch, one at a time. -/
theorem outcome_clears_updateInProgress_witness :
    (0 < discoveryOutstanding.pendingDiscovery ∧
      (step discoveryOutstanding Event.discoveryUnavailable).updateInProgress = false) ∧
    (0 < queryOutstanding.pendingQuery ∧ wellShaped oneSampleResponse = true ∧
      (step queryOutstanding (Event.queryDone oneSampleResponse)).updateInProgress = false) ∧
    (step queryOutstanding (Event.queryFail "timeout")).updateInProgress = false ∧
    (init.updateInProgress = false ∧
      (update Delivery.deferred init).discoveryCalls = init.discoveryCalls + 1) :=
  ⟨⟨by decide, (outcome_clears_updateInProgress discoveryOutstanding).1 (by decide)⟩,
    ⟨by decide, by decide,
      (outcome_clears_updateInProgress queryOutstanding).2.1 oneSampleResponse (by decide)
        (Or.inr (Or.inr (by decide)))⟩,
    (outcome_clears_updateInProgress queryOutstanding).2.2.1 "timeout" (by decide),
    ⟨by decide, (outcome_clears_updateInProgress init).2.2.2 Delivery.deferred (by decide)⟩⟩

/-- C10: on a mounted widget the `.done` handler sets `BROKEN` for every response whose
status is not `'success'`, whatever else it carries; sets `NODATA` for a status-`'success'`
response with an empty result list or with a first series whose `values` is empty; and
for a status-`'success'` response whose first series holds at least one pair sets
`LOADED` with `state.data` the pairs of that series mapped in order to
`{date, value}`, whatever `state.data` held before.  Mounted: `componentDidMount` has
set `_isMounted` and React has not unmounted the component. -/
theorem done_classification (w : SparklineWidget) (hm : w._isMounted = true)
    (hu : w.unmounted = false) :
    (∀ (status : String) (data : Option Data), status ≠ "success" →
      doUpdate_done w { status := status, data := data }
        = Except.ok { w with state := { w.state with state := states.BROKEN } }) ∧
    doUpdate_done w { status := "success", data := some { result := some [] } }
      = Except.ok { w with state := { w.state with state := states.NODATA } } ∧
    (∀ rest : List Series,
      doUpdate_done w
          { status := "success", data := some { result := some ({ values := some [] } :: rest) } }
        = Except.ok { w with state := { w.state with state := states.NODATA } }) ∧
    (∀ (item : Item) (items : List Item) (rest : List Series),
      ∃ w1, doUpdate_done w
          { status := "success"
            data := some { result := some ({ values := some (item :: items) } :: rest) } }
        = Except.ok w1 ∧
        w1.state.state = states.LOADED ∧
        w1.state.data
          = (item :: items).map (fun it => ({ date := it.1, value := it.2 } : Sample))) := by
  refine ⟨fun status data hs => ?_, ?_, fun rest => ?_, fun item items rest => ?_⟩
  · simp [doUpdate_done, setState, hm, hu, hs]
  · simp [doUpdate_done, setState, hm, hu]
  · simp [doUpdate_done, setState, hm, hu, valuesLtOne]
  · simp [doUpdate_done, setState, hm, hu, valuesLtOne, updateData]

/-- Witness of C10: the four kinds of response on the widget whose range query is
outstanding. -/
theorem done_classification_witness :
    queryOutstanding._isMounted = true ∧
    queryOutstanding.unmounted = false ∧
    doUpdate_done queryOutstanding errorResponse
      = Except.ok { queryOutstanding with
          state := { queryOutstanding.state with state := states.BROKEN } } ∧
    doUpdate_done queryOutstanding emptyResultResponse
      = Except.ok { queryOutstanding with
          state := { queryOutstanding.state with state := states.NODATA } } ∧
    (∃ w1, doUpdate_done queryOutstanding oneSampleResponse = Except.ok w1 ∧
      w1.state.state = states.LOADED ∧
      w1.state.data = [{ date := 1, value := "10" }]) :=
  ⟨by decide, by decide,
    (done_classification queryOutstanding (by decide) (by decide)).1 "error" none (by decide),
    (done_classification queryOutstanding (by decide) (by decide)).2.1,
    (done_classification queryOutstanding (by decide) (by decide)).2.2.2 (1, "10") [] []⟩

end SparklineWidget
